import Mathlib

/-!
Verification of `src/app/layout.tsx` of the ResumeParser repository.

The file defines a Next.js root layout component.  We embed the JSX element
tree shallowly: a `ReactNode` is either the null node, a text node, a
fragment, a host element (lowercase HTML tag such as `html`, `body`,
`title`, `meta`) or a component element (capitalized name such as `Head`,
`Provider`, `TopNavBar`, `Analytics`).  Props are association lists from
prop names to prop values; a prop value is either a string literal or the
imported Redux store object.  `RootLayout` is translated directly from the
JSX returned by the default export of the file.
-/

/-- The Redux store imported from `lib/redux/store`.  Its internals are not
part of the shown source; for the layout claims only its identity matters,
so it is modelled as a distinguished opaque token. -/
structure ReduxStore where
  tag : Unit
  deriving DecidableEq, Repr

/-- The `store` object imported by `layout.tsx` from `lib/redux/store`. -/
def store : ReduxStore := ⟨()⟩

/-- A JSX prop value appearing in `layout.tsx`: either a string literal
(`lang="en"`, `name="description"`, ...) or the Redux store object
(`store={store}`). -/
inductive PropVal where
  | str : String → PropVal
  | storeVal : ReduxStore → PropVal
  deriving DecidableEq, Repr

/-- A React element tree.  `element` is a host (HTML) element with a tag,
props and children; `component` is a React component element with a name,
props and children; `fragment` is a keyless fragment; `text` a text node;
`null` the empty node. -/
inductive ReactNode where
  | null : ReactNode
  | text : String → ReactNode
  | fragment : List ReactNode → ReactNode
  | element : String → List (String × PropVal) → List ReactNode → ReactNode
  | component : String → List (String × PropVal) → List ReactNode → ReactNode

/-- The `TopNavBar` component element rendered by the layout (imported from
`components/TopNavBar`; it takes no props and no children here). -/
def TopNavBar : ReactNode := ReactNode.component "TopNavBar" [] []

/-- The `Analytics` component element rendered by the layout (imported from
`@vercel/analytics/react`; it takes no props and no children here). -/
def Analytics : ReactNode := ReactNode.component "Analytics" [] []

/-- The `RootLayout` default export of `src/app/layout.tsx`, translated
node for node from its JSX return value. -/
def RootLayout (children : ReactNode) : ReactNode :=
  ReactNode.element "html" [("lang", PropVal.str "en")]
    [ ReactNode.component "Head" []
        [ ReactNode.element "title" []
            [ ReactNode.text "AI Resume - Free Open-source Resume Builder and Parser" ],
          ReactNode.element "meta"
            [ ("name", PropVal.str "description"),
              ("content", PropVal.str "AI Resume is a free, open-source, and powerful resume builder that allows anyone to create a modern professional resume in 3 simple steps. For those who have an existing resume, AI Resume also provides a resume parser to help test and confirm its ATS readability.") ]
            [] ],
      ReactNode.element "body" []
        [ ReactNode.component "Provider" [("store", PropVal.storeVal store)]
            [ TopNavBar,
              children,
              Analytics ] ] ]

/-- The module-level shape of `src/app/layout.tsx`: its directive prologue,
its import specifiers in order, and its default export. -/
structure ClientModule where
  directives : List String
  imports : List String
  defaultExport : ReactNode → ReactNode

/-- The `layout.tsx` module: it opens with the `"use client"` directive,
then its six imports, and default-exports `RootLayout`. -/
def layoutModule : ClientModule :=
  { directives := ["use client"],
    imports :=
      [ "globals.css", "components/TopNavBar", "@vercel/analytics/react",
        "react-redux", "lib/redux/store", "next/head" ],
    defaultExport := RootLayout }

/-- The i-th child of a node (children are only carried by fragments,
host elements and component elements). -/
def childAt : ReactNode → Nat → Option ReactNode
  | ReactNode.fragment cs, i => cs.get? i
  | ReactNode.element _ _ cs, i => cs.get? i
  | ReactNode.component _ _ cs, i => cs.get? i
  | _, _ => none

/-- The node reached from `n` by following a path of child indices. -/
def getAt : ReactNode → List Nat → Option ReactNode
  | n, [] => some n
  | n, i :: p =>
    match childAt n i with
    | some m => getAt m p
    | none => none

mutual
/-- Replace the subtree of `n` at the given path of child indices
by `r` (identity when the path does not exist in `n`). -/
def setAt : ReactNode → List Nat → ReactNode → ReactNode
  | _, [], r => r
  | ReactNode.fragment cs, i :: p, r => ReactNode.fragment (setAtList cs i p r)
  | ReactNode.element t ps cs, i :: p, r => ReactNode.element t ps (setAtList cs i p r)
  | ReactNode.component t ps cs, i :: p, r => ReactNode.component t ps (setAtList cs i p r)
  | n, _ :: _, _ => n

/-- Replace, inside a list of children, the subtree at path `p` below the
i-th child by `r`. -/
def setAtList : List ReactNode → Nat → List Nat → ReactNode → List ReactNode
  | [], _, _, _ => []
  | m :: ms, 0, p, r => setAt m p r :: ms
  | m :: ms, i + 1, p, r => m :: setAtList ms i p r
end

/-- The value of the `lang` attribute of a node, when it has one. -/
def langAttr : ReactNode → Option PropVal
  | ReactNode.element _ ps _ => ps.lookup "lang"
  | ReactNode.component _ ps _ => ps.lookup "lang"
  | _ => none

/-- C1: for every children node, the element tree returned by `RootLayout`
places children inside the global Redux state `Provider` constructed with
the imported `store`: the node of the tree at path `[1, 0]` (the only
child of `body`) is a `Provider` component whose `store` prop is the
imported store and whose children contain the children node. -/
theorem C1_children_wrapped_in_provider (children : ReactNode) :
    ∃ cs, getAt (RootLayout children) [1, 0]
        = some (ReactNode.component "Provider" [("store", PropVal.storeVal store)] cs)
      ∧ children ∈ cs := by
  refine ⟨[TopNavBar, children, Analytics], rfl, ?_⟩
  simp

/-- C2: for every children node, the tree returned by `RootLayout` contains
`TopNavBar` as a sibling rendered before children inside the `body`: the
`body` element holds a `Provider` whose child list has `TopNavBar` at an
earlier index than children. -/
theorem C2_topnavbar_before_children_in_body (children : ReactNode) :
    ∃ props l,
      getAt (RootLayout children) [1]
        = some (ReactNode.element "body" [] [ReactNode.component "Provider" props l])
      ∧ ∃ i j, i < j ∧ l.get? i = some TopNavBar ∧ l.get? j = some children := by
  exact ⟨[("store", PropVal.storeVal store)], [TopNavBar, children, Analytics],
    rfl, 0, 1, Nat.zero_lt_one, rfl, rfl⟩

/-- C3: `RootLayout` is pure UI composition: it is a deterministic function
of its children prop (the embedding has no state or effect parameters,
because the source has none), so two invocations with the same children
return identical element trees. -/
theorem C3_deterministic (c1 c2 : ReactNode) (h : c1 = c2) :
    RootLayout c1 = RootLayout c2 := by
  rw [h]

/-- Witness for C3 at the concrete input `ReactNode.null`. -/
theorem C3_deterministic_witness :
    RootLayout ReactNode.null = RootLayout ReactNode.null :=
  C3_deterministic ReactNode.null ReactNode.null rfl

/-- C4: for every children node, `RootLayout` emits head tags: the node at
path `[0]` is a `Head` component containing a `title` element and a `meta`
element whose props include `name = "description"`. -/
theorem C4_head_tags (children : ReactNode) :
    ∃ hs, getAt (RootLayout children) [0] = some (ReactNode.component "Head" [] hs)
      ∧ (∃ tc, ReactNode.element "title" [] tc ∈ hs)
      ∧ (∃ mps, ReactNode.element "meta" mps [] ∈ hs
          ∧ ("name", PropVal.str "description") ∈ mps) := by
  refine ⟨_, rfl,
    ⟨[ReactNode.text "AI Resume - Free Open-source Resume Builder and Parser"], ?_⟩,
    ⟨[("name", PropVal.str "description"),
      ("content", PropVal.str "AI Resume is a free, open-source, and powerful resume builder that allows anyone to create a modern professional resume in 3 simple steps. For those who have an existing resume, AI Resume also provides a resume parser to help test and confirm its ATS readability.")],
      ?_, ?_⟩⟩ <;> simp

/-- C5: the root layout module begins with the `"use client"` directive
(the application is client-rendered) and default-exports `RootLayout`. -/
theorem C5_use_client_directive :
    layoutModule.directives.head? = some "use client"
      ∧ layoutModule.defaultExport = RootLayout :=
  ⟨rfl, rfl⟩

/-- C6: `RootLayout` is a thin declarative shell without branching on its
input: for every two children values, the tree for the second is obtained
from the tree for the first by replacing only the subtree at the single
slot path `[1, 0, 1]` (second child of the `Provider`), and that slot
holds exactly the inserted children; everything outside that slot is
unchanged by the choice of children. -/
theorem C6_single_slot_frame (c1 c2 : ReactNode) :
    RootLayout c2 = setAt (RootLayout c1) [1, 0, 1] c2
      ∧ getAt (RootLayout c1) [1, 0, 1] = some c1 := by
  constructor
  · simp [RootLayout, setAt, setAtList]
  · rfl

/-- C7: for every children node, `RootLayout` renders children exactly once
and unmodified, inside `body`, between `TopNavBar` and `Analytics`: the
`body` element at path `[1]` has the `Provider` as its only child, and the
child list of that `Provider` is exactly `[TopNavBar, children, Analytics]`. -/
theorem C7_children_once_between_navbar_and_analytics (children : ReactNode) :
    getAt (RootLayout children) [1]
        = some (ReactNode.element "body" []
            [ReactNode.component "Provider" [("store", PropVal.storeVal store)]
              [TopNavBar, children, Analytics]])
      ∧ getAt (RootLayout children) [1, 0]
        = some (ReactNode.component "Provider" [("store", PropVal.storeVal store)]
            [TopNavBar, children, Analytics]) :=
  ⟨rfl, rfl⟩

/-- C8: for every children node, the root of the tree returned by
`RootLayout` is the `html` element and its `lang` attribute equals `"en"`;
children is the only input, so no input changes this attribute. -/
theorem C8_root_lang_en (children : ReactNode) :
    (∃ ps cs, RootLayout children = ReactNode.element "html" ps cs)
      ∧ langAttr (RootLayout children) = some (PropVal.str "en") :=
  ⟨⟨[("lang", PropVal.str "en")], _, rfl⟩, rfl⟩

/-- C9: `RootLayout` is total: it is a total function of its children node
(the body of the source performs no partial operation and has no error
branch, so the embedding is a total Lean function), and for every input,
including `ReactNode.null` and the empty fragment, it returns a well-formed
`html` element tree. -/
theorem C9_total (children : ReactNode) :
    ∃ ps cs, RootLayout children = ReactNode.element "html" ps cs :=
  ⟨[("lang", PropVal.str "en")], _, rfl⟩

